import Mathlib

/-!
Verification of `scripts/analyze-results.py` (benchmark-result analysis script).

The script is shallowly embedded: Python dictionaries parsed from JSON become
the inductive `JVal`, the result store becomes an insertion-ordered association
list, every `print` call becomes one element of an effect trace, and Python
float arithmetic is modelled exactly by fractions.
-/

namespace AnalyzeResults

/-! ### Fractions

JSON numbers and Python float arithmetic are modelled as fractions
`num / den`.  All fractions produced from data keep a positive denominator
(`Q.posNorm` restores it); the representation is not reduced, which keeps
every operation computable by the kernel. -/

structure Q where
  num : Int
  den : Int
deriving DecidableEq

instance (n : Nat) : OfNat Q n := ⟨⟨n, 1⟩⟩

def Q.ofInt (n : Int) : Q := ⟨n, 1⟩

def Q.add (a b : Q) : Q := ⟨a.num * b.den + b.num * a.den, a.den * b.den⟩

def Q.sub (a b : Q) : Q := ⟨a.num * b.den - b.num * a.den, a.den * b.den⟩

def Q.mul (a b : Q) : Q := ⟨a.num * b.num, a.den * b.den⟩

/-- Division; a division by the value zero yields `0` (the script always
guards its divisions with a positivity or truthiness test). -/
def Q.div (a b : Q) : Q :=
  if b.num = 0 then ⟨0, 1⟩ else ⟨a.num * b.den * b.num.sign, a.den * b.num.natAbs⟩

instance : Add Q := ⟨Q.add⟩
instance : Sub Q := ⟨Q.sub⟩
instance : Mul Q := ⟨Q.mul⟩
instance : Div Q := ⟨Q.div⟩

/-- Order on fractions by cross-multiplication (both denominators positive). -/
def Q.le (a b : Q) : Prop := a.num * b.den ≤ b.num * a.den

def Q.lt (a b : Q) : Prop := a.num * b.den < b.num * a.den

instance : LE Q := ⟨Q.le⟩

instance : LT Q := ⟨Q.lt⟩

instance (a b : Q) : Decidable (a ≤ b) :=
  inferInstanceAs (Decidable (a.num * b.den ≤ b.num * a.den))

instance (a b : Q) : Decidable (a < b) :=
  inferInstanceAs (Decidable (a.num * b.den < b.num * a.den))

/-- Restore a positive denominator (value preserved; a zero denominator, which
no JSON number can produce, is mapped to 0). -/
def Q.posNorm (q : Q) : Q :=
  if 0 < q.den then q else if q.den = 0 then ⟨0, 1⟩ else ⟨-q.num, -q.den⟩

def Q.floor (q : Q) : Int := Int.ediv q.num q.den

/-! ### Character-level string helpers

The built-in `String` functions are replaced by `List Char` recursions so
that concrete runs of the embedded script reduce inside the kernel. -/

def isPrefixList : List Char → List Char → Bool
  | [], _ => true
  | _ :: _, [] => false
  | p :: ps, c :: cs => p == c && isPrefixList ps cs

def strStarts (s p : String) : Bool := isPrefixList p.data s.data

def strEnds (s p : String) : Bool := isPrefixList p.data.reverse s.data.reverse

def subListAt : List Char → List Char → Bool
  | pat, [] => isPrefixList pat []
  | pat, c :: cs => isPrefixList pat (c :: cs) || subListAt pat cs

/-- Python's `pat in s` substring test. -/
def strContainsB (s pat : String) : Bool := subListAt pat.data s.data

def replaceGo : Nat → List Char → List Char → List Char → List Char
  | 0, _, _, cs => cs
  | _ + 1, _, _, [] => []
  | fuel + 1, pat, rep, c :: cs =>
    if isPrefixList pat (c :: cs) then rep ++ replaceGo fuel pat rep ((c :: cs).drop pat.length)
    else c :: replaceGo fuel pat rep cs

/-- Python's `s.replace(pat, rep)`: replace every non-overlapping occurrence,
scanning left to right (the script only uses non-empty patterns). -/
def strReplace (s pat rep : String) : String :=
  String.mk (replaceGo s.data.length pat.data rep.data s.data)

def srep (c : Char) (n : Nat) : String := String.mk (List.replicate n c)

/-- Python's left-justify `f"{v:<w}"`: pad on the right with spaces to width `w`. -/
def ljust (w : Nat) (s : String) : String := s ++ srep ' ' (w - s.length)

def padZeros (w : Nat) (s : String) : String := srep '0' (w - s.length) ++ s

/-- Codepoint-wise comparison, Python's `<=` on strings. -/
def charsLe : List Char → List Char → Bool
  | [], _ => true
  | _ :: _, [] => false
  | a :: as, b :: bs =>
    if a.toNat < b.toNat then true
    else if b.toNat < a.toNat then false
    else charsLe as bs

def strLeB (a b : String) : Bool := charsLe a.data b.data

/-! ### Number parsing and printing (Python `float()`, `int()`, `str()`, `f"{x:.nf}"`) -/

def digitVal (c : Char) : Nat := c.toNat - 48

def digitsToNat (cs : List Char) : Nat := cs.foldl (fun a c => a * 10 + digitVal c) 0

def allDigits (cs : List Char) : Bool := cs.all Char.isDigit

def isPySpace (c : Char) : Bool :=
  c.toNat == 32 || c.toNat == 9 || c.toNat == 10 || c.toNat == 11 || c.toNat == 12 || c.toNat == 13

def trimChars (cs : List Char) : List Char :=
  ((cs.dropWhile isPySpace).reverse.dropWhile isPySpace).reverse

def parseSigned : List Char → Int × List Char
  | '-' :: rest => (-1, rest)
  | '+' :: rest => (1, rest)
  | cs => (1, cs)

def parseFloatChars (cs : List Char) : Option Q :=
  let sb := parseSigned cs
  let ip := sb.2.takeWhile Char.isDigit
  match sb.2.dropWhile Char.isDigit with
  | [] => if ip.isEmpty then none else some ⟨sb.1 * digitsToNat ip, 1⟩
  | '.' :: fr =>
    if allDigits fr && !(ip.isEmpty && fr.isEmpty) then
      some ⟨sb.1 * ((digitsToNat ip : Int) * (10 : Int) ^ fr.length + (digitsToNat fr : Int)),
            (10 : Int) ^ fr.length⟩
    else none
  | _ => none

/-- Python `float(s)` for decimal literals with optional sign, point and
surrounding whitespace.  Exponent and inf/nan forms are not modelled; the
script never receives them. -/
def parseFloat? (s : String) : Option Q := parseFloatChars (trimChars s.data)

def parseIntChars (cs : List Char) : Option Int :=
  let sb := parseSigned cs
  if sb.2.isEmpty || !allDigits sb.2 then none else some (sb.1 * digitsToNat sb.2)

/-- Python `int(s)`: optional sign, digits only (a decimal point is an error). -/
def parseInt? (s : String) : Option Int := parseIntChars (trimChars s.data)

/-- Round to the nearest integer, ties to even — the rounding of Python's
fixed-point formatting on exactly representable ties. -/
def roundHalfEven (q : Q) : Int :=
  let f := q.floor
  let r := q - Q.ofInt f
  if r < (⟨1, 2⟩ : Q) then f
  else if (⟨1, 2⟩ : Q) < r then f + 1
  else if Int.emod f 2 = 0 then f else f + 1

/-- Python's `f"{q:.precf}"` fixed-point formatting. -/
def fmtFixed (prec : Nat) (q : Q) : String :=
  let sc := roundHalfEven (q * Q.ofInt ((10 : Int) ^ prec))
  let sgn := if sc < 0 then "-" else ""
  let n := sc.natAbs
  if prec = 0 then sgn ++ toString (n / 10 ^ prec)
  else sgn ++ toString (n / 10 ^ prec) ++ "." ++ padZeros prec (toString (n % 10 ^ prec))

/-! ### Python/JSON values -/

/-- A parsed JSON document / Python value: `json.load` produces ints, floats,
strings, booleans and (string-keyed) dicts.  Arrays and `null` do not occur in
the benchmark files and are not modelled. -/
inductive JVal where
  | jint (n : Int)
  | jfloat (q : Q)
  | jstr (s : String)
  | jbool (b : Bool)
  | jobj (fields : List (String × JVal))

/-- Python `d[k]` lookup on a dict (first binding wins, as in a dict). -/
def JVal.get? (j : JVal) (k : String) : Option JVal :=
  match j with
  | .jobj fields => fields.lookup k
  | _ => none

/-- Python `d.get(k, default)`. -/
def JVal.getD (j : JVal) (k : String) (d : JVal) : JVal := (j.get? k).getD d

def JVal.isObj : JVal → Bool
  | .jobj _ => true
  | _ => false

def JVal.isNum : JVal → Bool
  | .jint _ => true
  | .jfloat _ => true
  | _ => false

/-- Numeric value of a Python object; booleans are ints in Python.  Strings
and dicts map to 0 — on those CPython's comparisons raise `TypeError`, a
crash path this function does not represent (`format_throughput` models the
one the claims examine directly).  Theorems whose truth depends on the
distinction — the exit-status guarantee of the error-policy claim — are
therefore stated for well-typed records only (see `recordOk`). -/
def JVal.toQ : JVal → Q
  | .jint n => ⟨n, 1⟩
  | .jfloat q => q.posNorm
  | .jbool b => if b then ⟨1, 1⟩ else ⟨0, 1⟩
  | .jstr _ => ⟨0, 1⟩
  | .jobj _ => ⟨0, 1⟩

/-- Python truthiness, as used in `if baseline_throughput:` etc. -/
def pyTruthy : JVal → Bool
  | .jint n => n != 0
  | .jfloat q => q.num != 0
  | .jbool b => b
  | .jstr s => !s.isEmpty
  | .jobj l => !l.isEmpty

/-- Decimal expansion digits of `num/den` (`num < den`), at most `fuel` digits. -/
def fracDigits : Nat → Nat → Nat → String
  | 0, _, _ => ""
  | _ + 1, 0, _ => ""
  | fuel + 1, num, den => toString (num * 10 / den) ++ fracDigits fuel (num * 10 % den) den

/-- Python `str()` of a value as interpolated by f-strings.  Float repr is the
exact decimal expansion capped at 30 digits — exact for every number a
benchmark file can contain.  `str(dict)` is not modelled (never printed). -/
def pyStr : JVal → String
  | .jint n => toString n
  | .jfloat q0 =>
    let q := q0.posNorm
    if Int.emod q.num q.den = 0 then toString (Int.ediv q.num q.den) ++ ".0"
    else (if q.num < 0 then "-" else "") ++ toString (q.num.natAbs / q.den.natAbs) ++ "." ++
      fracDigits 30 (q.num.natAbs % q.den.natAbs) q.den.natAbs
  | .jstr s => s
  | .jbool b => if b then "True" else "False"
  | .jobj _ => ""

/-! ### The three formatting helpers (`analyze-results.py`, lines 67–108) -/

def formatDurationQ (seconds : Q) : String :=
  if seconds < (60 : Q) then fmtFixed 1 seconds ++ "s"
  else if seconds < (3600 : Q) then fmtFixed 1 (seconds / 60) ++ "m"
  else fmtFixed 1 (seconds / 3600) ++ "h"

/-- `format_duration`: coerces numeric-looking strings via `float()`, returns
a non-coercible string unchanged, then formats seconds/minutes/hours. -/
def format_duration : JVal → String
  | .jstr s =>
    match parseFloat? s with
    | some q => formatDurationQ q
    | none => s
  | v => formatDurationQ v.toQ

def formatBytesNum (v : JVal) : String :=
  let b := v.toQ
  if b < (1024 : Q) then pyStr v ++ "B"
  else if b < ((1024 : Q) * 1024) then fmtFixed 1 (b / 1024) ++ "KB"
  else if b < ((1024 : Q) * 1024 * 1024) then fmtFixed 1 (b / ((1024 : Q) * 1024)) ++ "MB"
  else fmtFixed 1 (b / ((1024 : Q) * 1024 * 1024)) ++ "GB"

/-- `format_bytes`: coerces numeric-looking strings via `int()`, returns a
non-coercible string unchanged, then formats with 1024-based thresholds. -/
def format_bytes : JVal → String
  | .jstr s =>
    match parseInt? s with
    | some n => formatBytesNum (.jint n)
    | none => s
  | v => formatBytesNum v

/-- Numeric path of `format_throughput`: Gbps at or above 1000 Mbps. -/
def format_throughputQ (mbps : Q) : String :=
  if (1000 : Q) ≤ mbps then fmtFixed 2 (mbps / 1000) ++ " Gbps"
  else fmtFixed 1 mbps ++ " Mbps"

inductive PyErr where
  | typeErr
deriving DecidableEq

/-- `format_throughput` has no string-coercion branch: `mbps >= 1000` raises
`TypeError` when `mbps` is a string (or a dict); numbers and booleans
compare fine. -/
def format_throughput : JVal → Except PyErr String
  | .jstr _ => .error .typeErr
  | .jobj _ => .error .typeErr
  | v => .ok (format_throughputQ v.toQ)

/-! ### The results directory and `load_results` (lines 14–64)

A directory is a list of files; each file either parses to a `JVal` or fails
(malformed JSON / unreadable), carrying the exception text.  `rglob` patterns
are name predicates; paths are modelled by their file names. -/

inductive FileData where
  | ok (j : JVal)
  | bad (errMsg : String)

structure SrcFile where
  name : String
  data : FileData

def SrcFile.parsedB (f : SrcFile) : Bool :=
  match f.data with
  | .ok _ => true
  | .bad _ => false

/-- `rglob("*_stats.json")`. -/
def globStats (n : String) : Bool := strEnds n "_stats.json"

/-- `rglob("tool_*.json")`. -/
def globTool (n : String) : Bool := strStarts n "tool_" && strEnds n ".json"

/-- `rglob("parallel_*.json")`. -/
def globParallel (n : String) : Bool := strStarts n "parallel_" && strEnds n ".json"

/-- `rglob("resume_*.json")`. -/
def globResume (n : String) : Bool := strStarts n "resume_" && strEnds n ".json"

def matchesAny (n : String) : Bool := globStats n || globTool n || globParallel n || globResume n

/-- `Path.stem` for the `.json` files the globs produce. -/
def stem (n : String) : String := String.mk (n.data.take (n.data.length - 5))

/-- The result store: `defaultdict(list)` keyed by benchmark name, iterated in
insertion order exactly as a Python dict. -/
abbrev Results := List (String × List JVal)

/-- `results[benchmark_name].append(data)`. -/
def addResult (r : Results) (k : String) (v : JVal) : Results :=
  match r with
  | [] => [(k, [v])]
  | (k0, vs) :: rest => if k0 == k then (k0, vs ++ [v]) :: rest else (k0, vs) :: addResult rest k v

def keysOf (r : Results) : List String := r.map (·.1)

def runsOf (r : Results) (k : String) : List JVal := ((r.lookup k).getD [])

def totalRuns (r : Results) : Nat := (r.map (·.2.length)).sum

/-- Dict keys are modelled as strings (an embedded `benchmark` field of any
other type is interpolated through `str`, a junk path no claim exercises). -/
def keyStr (v : JVal) : String := pyStr v

def warnLine (name msg : String) : String := "Warning: Could not parse " ++ name ++ ": " ++ msg

/-- Key for a `*_stats.json` file: embedded `benchmark` field, falling back to
the stem with every `_stats` removed. -/
def keyStats (n : String) (j : JVal) : String :=
  keyStr (j.getD "benchmark" (.jstr (strReplace (stem n) "_stats" "")))

/-- Key for a `tool_*.json` file: embedded `benchmark` field, falling back to
the stem with every `tool_` removed. -/
def keyTool (n : String) (j : JVal) : String :=
  keyStr (j.getD "benchmark" (.jstr (strReplace (stem n) "tool_" "")))

/-- Key for a `parallel_*.json` file: `f"{benchmark}_p{parallelism}"` with
defaults `"parallel"` and `0`. -/
def keyParallel (_ : String) (j : JVal) : String :=
  pyStr (j.getD "benchmark" (.jstr "parallel")) ++ "_p" ++ pyStr (j.getD "parallelism" (.jint 0))

/-- Key for a `resume_*.json` file: `f"resume_{test}"` with default `"unknown"`. -/
def keyResume (_ : String) (j : JVal) : String :=
  "resume_" ++ pyStr (j.getD "test" (.jstr "unknown"))

/-- One file inside one glob loop: append the record on success, emit a
warning naming the file on a parse failure. -/
def ingest (keyOf : String → JVal → String) (acc : Results × List String) (f : SrcFile) :
    Results × List String :=
  match f.data with
  | .ok j => (addResult acc.1 (keyOf f.name j) j, acc.2)
  | .bad e => (acc.1, acc.2 ++ [warnLine f.name e])

/-- One `for json_file in results_path.rglob(pat):` loop. -/
def runPass (glob : String → Bool) (keyOf : String → JVal → String) (files : List SrcFile)
    (acc : Results × List String) : Results × List String :=
  (files.filter (fun f => glob f.name)).foldl (ingest keyOf) acc

/-- `load_results`: the four glob passes in program order, returning the store
and the warnings printed while loading. -/
def load_results (files : List SrcFile) : Results × List String :=
  runPass globResume keyResume files
    (runPass globParallel keyParallel files
      (runPass globTool keyTool files
        (runPass globStats keyStats files ([], []))))

/-! ### Stable sorting (Python `list.sort(key=...)` / `sorted(...)`) -/

def sInsert {α : Type} (le : α → α → Bool) (x : α) : List α → List α
  | [] => [x]
  | y :: ys => if le x y then x :: y :: ys else y :: sInsert le x ys

/-- Stable insertion sort — extensionally Python's stable ascending sort for a
total preorder. -/
def sSort {α : Type} (le : α → α → Bool) : List α → List α
  | [] => []
  | x :: xs => sInsert le x (sSort le xs)

/-- Comparison through a numeric sort key. -/
def qleKey {α : Type} (key : α → Q) (a b : α) : Bool := decide (key a ≤ key b)

def catMap {α β : Type} (f : α → List β) : List α → List β
  | [] => []
  | a :: l => f a ++ catMap f l

/-! ### `analyze_benchmark_suite` (lines 111–182) -/

structure SEntry where
  test : String
  meanDur : JVal
  tp : JVal
  run : JVal

def suiteNameList : List String :=
  ["rsync_default", "rsync_compress", "rsync_checksum", "tar_plain", "tar_zstd", "tar_gzip"]

def suiteTestKeys (results : Results) : List String :=
  (keysOf results).filter (fun k => suiteNameList.contains k)

/-- Mean duration of one run: the `mean` field when `duration_seconds` is a
dict, the flat value otherwise. -/
def meanDurOf (run : JVal) : JVal :=
  let di := run.getD "duration_seconds" (.jobj [])
  if di.isObj then di.getD "mean" (.jint 0) else di

def suiteEntries (results : Results) : List SEntry :=
  catMap
    (fun t => (runsOf results t).map fun run =>
      ⟨t, meanDurOf run, run.getD "throughput_mbps" (.jint 0), run⟩)
    (suiteTestKeys results)

def suiteSorted (results : Results) : List SEntry :=
  sSort (qleKey fun e => e.meanDur.toQ) (suiteEntries results)

/-- The `relative` annotation of a suite row. -/
def suiteRelCell (b : Option JVal) (tp : JVal) : String :=
  match b with
  | none => ""
  | some bv =>
    if pyTruthy bv && decide ((0 : Q) < tp.toQ) then
      if (1 : Q) < tp.toQ / bv.toQ then " (" ++ fmtFixed 1 (tp.toQ / bv.toQ) ++ "x)" else ""
    else ""

def suiteRow (b : Option JVal) (x : SEntry) : String :=
  let di := x.run.getD "duration_seconds" (.jobj [])
  let mean := if di.isObj then di.getD "mean" (.jint 0) else di
  let stdev := if di.isObj then di.getD "stdev" (.jint 0) else .jint 0
  let cv := if di.isObj then di.getD "cv_percent" (.jint 0) else .jint 0
  let runs := x.run.getD "runs" (.jint 1)
  ljust 25 x.test ++ " " ++ ljust 12 (format_duration mean) ++ " " ++
    ljust 12 (format_duration stdev) ++ " " ++ ljust 8 (fmtFixed 1 cv.toQ) ++ " " ++
    ljust 15 (format_throughputQ x.tp.toQ) ++ suiteRelCell b x.tp ++ " " ++ ljust 6 (pyStr runs)

/-- Row loop: the baseline becomes the first entry with positive throughput
and is then fixed. -/
def suiteRowsGo (b : Option JVal) : List SEntry → List String
  | [] => []
  | x :: xs =>
    let b1 := match b with
      | none => if decide ((0 : Q) < x.tp.toQ) then some x.tp else none
      | some v => some v
    suiteRow b1 x :: suiteRowsGo b1 xs

def suiteColHdr : String :=
  "\n" ++ ljust 25 "Benchmark" ++ " " ++ ljust 12 "Mean" ++ " " ++ ljust 12 "±StdDev" ++ " " ++
    ljust 8 "CV%" ++ " " ++ ljust 15 "Throughput" ++ " " ++ ljust 6 "Runs"

def analyze_benchmark_suite (results : Results) : List String :=
  ["\n" ++ srep '=' 100, "BENCHMARK SUITE RESULTS (with statistics)", srep '=' 100] ++
  if (suiteTestKeys results).isEmpty then ["No benchmark suite results found."]
  else [suiteColHdr, srep '-' 100] ++ suiteRowsGo none (suiteSorted results)

/-! ### `analyze_parallel_benchmarks` (lines 185–225) -/

structure PEntry where
  p : JVal
  dur : JVal
  tp : JVal
  test : String

def parallelKeys (results : Results) : List String :=
  (keysOf results).filter (fun k => strStarts k "parallel_")

/-- Tuple extraction of the terminal parallel loop:
`(run.get("parallelism", 1), run.get("duration_seconds", 0),
run.get("throughput_mbps", 0), test)`. -/
def termPEntryOf (t : String) (run : JVal) : PEntry :=
  ⟨run.getD "parallelism" (.jint 1), run.getD "duration_seconds" (.jint 0),
   run.getD "throughput_mbps" (.jint 0), t⟩

def parallelTestData (results : Results) : List PEntry :=
  catMap (fun t => (runsOf results t).map (termPEntryOf t)) (parallelKeys results)

def termSorted (l : List PEntry) : List PEntry := sSort (qleKey fun e => e.p.toQ) l

/-- The `speedup` cell of a terminal parallel row: empty unless the baseline
is truthy and the throughput positive. -/
def termSpeedupCell (b : Option JVal) (tp : JVal) : String :=
  match b with
  | none => ""
  | some bv =>
    if pyTruthy bv && decide ((0 : Q) < tp.toQ) then fmtFixed 1 (tp.toQ / bv.toQ) ++ "x" else ""

def termRowCell (b : Option JVal) (x : PEntry) : String × String :=
  (ljust 25 x.test ++ " " ++ ljust 12 (format_duration x.dur) ++ " " ++
     ljust 15 (format_throughputQ x.tp.toQ) ++ " " ++ ljust 10 (termSpeedupCell b x.tp),
   termSpeedupCell b x.tp)

/-- Row loop: the baseline becomes the very first entry's throughput (even a
zero one) and is then fixed. -/
def termRowCellGo (b : Option JVal) : List PEntry → List (String × String)
  | [] => []
  | x :: xs =>
    let b1 := match b with
      | none => some x.tp
      | some v => some v
    termRowCell b1 x :: termRowCellGo b1 xs

def termRows (l : List PEntry) : List String := (termRowCellGo none (termSorted l)).map (·.1)

def termSpeedupCells (l : List PEntry) : List String :=
  (termRowCellGo none (termSorted l)).map (·.2)

def parallelColHdr : String :=
  "\n" ++ ljust 25 "Configuration" ++ " " ++ ljust 12 "Duration" ++ " " ++
    ljust 15 "Throughput" ++ " " ++ ljust 10 "Speedup"

def analyze_parallel_benchmarks (results : Results) : List String :=
  ["\n" ++ srep '=' 100, "PARALLEL TRANSFER RESULTS", srep '=' 100] ++
  if (parallelKeys results).isEmpty then ["No parallel benchmark results found."]
  else [parallelColHdr, srep '-' 100] ++ termRows (parallelTestData results)

/-! ### `analyze_resume_tests` (lines 228–254) -/

def resumeKeys (results : Results) : List String :=
  (keysOf results).filter (fun k => strStarts k "resume_")

def resumeKeysSorted (results : Results) : List String := sSort strLeB (resumeKeys results)

def resumeRowTerm (test : String) (run : JVal) : String :=
  ljust 25 test ++ " " ++
    ljust 12 (format_duration (run.getD "partial_duration_seconds" (.jint 0))) ++ " " ++
    ljust 12 (format_duration (run.getD "resume_duration_seconds" (.jint 0))) ++ " " ++
    ljust 12 (format_duration (run.getD "total_duration_seconds" (.jint 0))) ++ " " ++
    ljust 15 (format_bytes (run.getD "file_size_bytes" (.jint 0)))

def resumeColHdr : String :=
  "\n" ++ ljust 25 "Test" ++ " " ++ ljust 12 "Partial" ++ " " ++ ljust 12 "Resume" ++ " " ++
    ljust 12 "Total" ++ " " ++ ljust 15 "File Size"

def analyze_resume_tests (results : Results) : List String :=
  ["\n" ++ srep '=' 100, "RESUME/PARTIAL TRANSFER RESULTS", srep '=' 100] ++
  if (resumeKeys results).isEmpty then ["No resume test results found."]
  else [resumeColHdr, srep '-' 100] ++
    catMap (fun t => (runsOf results t).map (resumeRowTerm t)) (resumeKeysSorted results)

/-! ### `generate_comparison_table` (lines 257–352) -/

def suiteConfigs : List (String × String) :=
  [("rsync_default", "rsync -a"),
   ("rsync_compress", "rsync -az (compressed)"),
   ("rsync_checksum", "rsync -a --checksum"),
   ("tar_plain", "tar \\| ssh (no compression)"),
   ("tar_gzip", "tar -cz \\| ssh (gzip)"),
   ("tar_zstd", "tar --zstd \\| ssh (zstd)")]

/-- Row sources of the markdown tools table, in the fixed `suite_tests` dict
order of `generate_comparison_table` (not sorted by duration). -/
def mdToolsEntries (results : Results) : List (String × String × JVal) :=
  catMap
    (fun kc =>
      if (keysOf results).contains kc.1 then (runsOf results kc.1).map (fun r => (kc.1, kc.2, r))
      else [])
    suiteConfigs

def mdToolRow (e : String × String × JVal) : String :=
  let run := e.2.2
  let di := run.getD "duration_seconds" (.jobj [])
  let mean := (if di.isObj then di.getD "mean" (.jint 0) else di).toQ
  let stdev := (if di.isObj then di.getD "stdev" (.jint 0) else .jint 0).toQ
  let cv := (if di.isObj then di.getD "cv_percent" (.jint 0) else .jint 0).toQ
  let tp := (run.getD "throughput_mbps" (.jint 0)).toQ
  let notes :=
    if strContainsB e.1 "compress" && decide ((0 : Q) < tp) then "Good for compressible data"
    else if strContainsB e.1 "checksum" then "CPU-intensive verification"
    else ""
  "| " ++ ljust 35 e.2.1 ++ " | " ++ ljust 18 (fmtFixed 1 mean ++ "s ± " ++ fmtFixed 1 stdev ++ "s") ++
    " | " ++ ljust 15 (format_throughputQ tp) ++ " | " ++ fmtFixed 1 cv ++ "% | " ++ notes ++ " |"

structure MEntry where
  p : JVal
  dur : JVal
  tp : JVal

/-- Tuple extraction of the markdown scaling loop:
`(run.get("parallelism", 1), run.get("duration_seconds", 0),
run.get("throughput_mbps", 0))`. -/
def mdMEntryOf (run : JVal) : MEntry :=
  ⟨run.getD "parallelism" (.jint 1), run.getD "duration_seconds" (.jint 0),
   run.getD "throughput_mbps" (.jint 0)⟩

def mdParallelData (results : Results) : List MEntry :=
  catMap
    (fun kv => if strStarts kv.1 "parallel_rsync_p" then kv.2.map mdMEntryOf else [])
    results

def mdSorted (l : List MEntry) : List MEntry := sSort (qleKey fun e => e.p.toQ) l

/-- `parallel_data[0][2]` after the sort (the dead `else 1` of the source is
kept as the default). -/
def mdBaseline (l : List MEntry) : JVal :=
  match mdSorted l with
  | [] => .jint 1
  | x :: _ => x.tp

/-- `speedup = throughput / baseline_throughput if baseline_throughput > 0 else 1`. -/
def mdSpeedupVal (b : JVal) (x : MEntry) : Q :=
  if (0 : Q) < b.toQ then x.tp.toQ / b.toQ else 1

/-- `efficiency = (speedup / p) * 100 if p > 0 else 100`. -/
def mdEffVal (b : JVal) (x : MEntry) : Q :=
  if (0 : Q) < x.p.toQ then mdSpeedupVal b x / x.p.toQ * 100 else 100

def mdRow (b : JVal) (x : MEntry) : String :=
  "| " ++ ljust 11 (pyStr x.p) ++ " | " ++ ljust 8 (format_duration x.dur) ++ " | " ++
    ljust 10 (format_throughputQ x.tp.toQ) ++ " | " ++ fmtFixed 1 (mdSpeedupVal b x) ++ "x | " ++
    fmtFixed 0 (mdEffVal b x) ++ "% |"

def mdScalingRows (l : List MEntry) : List String := (mdSorted l).map (mdRow (mdBaseline l))

/-- The `{speedup:.1f}x` cells of the markdown scaling table in row order. -/
def mdSpeedupCells (l : List MEntry) : List String :=
  (mdSorted l).map (fun x => fmtFixed 1 (mdSpeedupVal (mdBaseline l) x) ++ "x")

/-- The `{efficiency:.0f}%` cells of the markdown scaling table in row order. -/
def mdEffCells (l : List MEntry) : List String :=
  (mdSorted l).map (fun x => fmtFixed 0 (mdEffVal (mdBaseline l) x) ++ "%")

def mdResumeRow (test : String) (run : JVal) : String :=
  "| " ++ ljust 15 (strReplace test "resume_" "") ++ " | " ++
    ljust 15 (format_duration (run.getD "partial_duration_seconds" (.jint 0))) ++ " | " ++
    ljust 15 (format_duration (run.getD "resume_duration_seconds" (.jint 0))) ++ " | " ++
    ljust 10 (format_duration (run.getD "total_duration_seconds" (.jint 0))) ++ " | " ++
    ljust 8 "N/A" ++ " |"

def generate_comparison_table (results : Results) : List String :=
  ["\n" ++ srep '=' 100, "BLOG POST COMPARISON TABLE", srep '=' 100,
   "\n### Transfer Tools Comparison (Mean ± StdDev, n=3 runs)",
   "\n| Tool | Configuration | Duration | Throughput | CV% | Notes |",
   "|------|--------------|----------|------------|-----|-------|"] ++
  (mdToolsEntries results).map mdToolRow ++
  ["\n### Parallel Transfer Scaling",
   "\n| Parallelism | Duration | Throughput | Speedup | Efficiency |",
   "|-------------|----------|------------|---------|------------|"] ++
  mdScalingRows (mdParallelData results) ++
  (if (resumeKeys results).isEmpty then []
   else
     ["\n### Resume/Partial Transfer Performance",
      "\n| Method | Partial Duration | Resume Duration | Total Time | Overhead |",
      "|--------|-----------------|-----------------|------------|----------|"] ++
     catMap (fun t => (runsOf results t).map (mdResumeRow t)) (resumeKeysSorted results))

/-! ### `generate_summary_report` (lines 355–417) and `main` (lines 420–446) -/

def sysConfigLines (si : JVal) : List String :=
  ["\n### System Configuration",
   "- **Instance Type:** " ++ pyStr (si.getD "cpu_model" (.jstr "Unknown")),
   "- **CPU Cores:** " ++ pyStr (si.getD "cpu_cores" (.jstr "Unknown")),
   "- **Memory:** " ++ pyStr (si.getD "memory_gb" (.jstr "Unknown")) ++ " GB",
   "- **Kernel:** " ++ pyStr (si.getD "kernel" (.jstr "Unknown")),
   "- **Filesystem:** " ++ pyStr (si.getD "filesystem" (.jstr "Unknown")),
   "- **Rsync Version:** " ++ pyStr (si.getD "rsync_version" (.jstr "Unknown"))]

def fastestOf (results : Results) : Option String × Q :=
  (catMap (fun kv => kv.2.map fun run => (kv.1, (run.getD "throughput_mbps" (.jint 0)).toQ))
      results).foldl
    (fun acc e => if acc.2 < e.2 then (some e.1, e.2) else acc) (none, 0)

def fastestLines (results : Results) : List String :=
  match fastestOf results with
  | (some k, v) =>
    if !k.isEmpty then ["- **Fastest Tool:** " ++ k ++ " (" ++ format_throughputQ v ++ ")"] else []
  | (none, _) => []

def keyFindingsLines (results : Results) : List String :=
  fastestLines results ++
  (let n := (keysOf results).countP
      (fun k => strContainsB k "compress" || strContainsB k "gzip" || strContainsB k "zstd")
   if n ≠ 0 then ["- **Compression Tools Tested:** " ++ toString n ++ " variants"] else []) ++
  (let n := (keysOf results).countP (fun k => strContainsB k "parallel")
   if n ≠ 0 then ["- **Parallel Configurations:** " ++ toString n ++ " different parallelism levels"]
   else [])

def coverageLines (results : Results) : List String :=
  ["\n### Test Coverage",
   "- **Total Benchmarks:** " ++ toString results.length,
   "- **Total Runs:** " ++ toString (totalRuns results),
   "- **Tools Tested:** rsync, tar+ssh, parallel variants, aria2c, rclone",
   "- **Data Types:** Mixed realistic workload (DB, logs, code, binary assets)",
   "\n### Key Findings"] ++ keyFindingsLines results

/-- `generate_summary_report`: `json.load` of a present `system_info.json` is
not wrapped in try/except — a malformed one raises out of the function, with
only the header printed (`error` branch). -/
def generate_summary_report (files : List SrcFile) (results : Results) :
    Except (List String) (List String) :=
  let hdr := ["\n" ++ srep '=' 100, "BENCHMARK SUMMARY REPORT", srep '=' 100]
  match files.find? (fun f => f.name == "system_info.json") with
  | some f =>
    match f.data with
    | .bad _ => .error hdr
    | .ok si => .ok (hdr ++ sysConfigLines si ++ coverageLines results)
  | none => .ok (hdr ++ coverageLines results)

/-- Observable effects of a process run.  The script only ever prints;
`fileWrite` exists so that the absence of any persisted artifact is a
statement, not a typing accident. -/
inductive Effect where
  | out (line : String)
  | fileWrite (path content : String)

def Effect.isOut : Effect → Bool
  | .out _ => true
  | .fileWrite _ _ => false

def dirMissingMsg (dir : String) : String :=
  "Error: Results directory '" ++ dir ++ "' not found"

def noResultsMsg : String := "No benchmark results found."

def loadedMsg (files : List SrcFile) : String :=
  "Loaded results from " ++ toString (files.countP (fun f => strEnds f.name ".json")) ++ " files"

def foundMsg (results : Results) : String :=
  "Found " ++ toString results.length ++ " unique benchmark types"

def tailMsgs (dir : String) : List String :=
  ["\n" ++ srep '=' 100, "Analysis complete!", srep '=' 100,
   "\nResults directory: " ++ dir,
   "View individual JSON files for detailed per-run metrics."]

/-- `main` on a results directory (`none` = directory missing): the printed
lines in program order, plus the process exit status — 1 for the two
`sys.exit(1)` calls and for the uncaught exception raised by a malformed
`system_info.json`, 0 otherwise. -/
def runMainParts (dir : String) (fs : Option (List SrcFile)) : List String × Nat :=
  match fs with
  | none => ([dirMissingMsg dir], 1)
  | some files =>
    let lr := load_results files
    if lr.1.isEmpty then (lr.2 ++ [noResultsMsg], 1)
    else
      let pre := lr.2 ++ [loadedMsg files, foundMsg lr.1]
      let body := analyze_benchmark_suite lr.1 ++ analyze_parallel_benchmarks lr.1 ++
        analyze_resume_tests lr.1 ++ generate_comparison_table lr.1
      match generate_summary_report files lr.1 with
      | .ok rep => (pre ++ body ++ rep ++ tailMsgs dir, 0)
      | .error crashRep => (pre ++ body ++ crashRep, 1)

/-- The effect trace of `main`: each printed line is a print effect — the
script performs no other effect (in particular, no file write anywhere). -/
def runMain (dir : String) (fs : Option (List SrcFile)) : List Effect × Nat :=
  ((runMainParts dir fs).1.map Effect.out, (runMainParts dir fs).2)

/-- The warning a parse failure produces (placed with the other
`load_results` definitions for the proofs below). -/
def warnOf (f : SrcFile) : Option String :=
  match f.data with
  | .bad e => some (warnLine f.name e)
  | .ok _ => none

/-- How many of the four dispatch patterns a file name matches. -/
def matchCount (n : String) : Nat :=
  (if globStats n then 1 else 0) + (if globTool n then 1 else 0) +
    (if globParallel n then 1 else 0) + (if globResume n then 1 else 0)

/-- A JSON number as `json.load` produces it (for floats: a positive
denominator, as every parsed decimal has). -/
def JVal.numOk : JVal → Bool
  | .jint _ => true
  | .jfloat q => decide (0 < q.den)
  | _ => false

/-- A field that is absent or holds a well-formed JSON number. -/
def JVal.optNumOk (run : JVal) (k : String) : Bool :=
  match run.get? k with
  | some v => v.numOk
  | none => true

/-- The `duration_seconds` field: absent, a number, or a stats dict whose
`mean`/`stdev`/`cv_percent` are numbers when present. -/
def durFieldOk (run : JVal) : Bool :=
  match run.get? "duration_seconds" with
  | some (.jobj fields) =>
    JVal.optNumOk (.jobj fields) "mean" && JVal.optNumOk (.jobj fields) "stdev" &&
      JVal.optNumOk (.jobj fields) "cv_percent"
  | some v => v.numOk
  | none => true

/-- A well-typed record: a JSON object whose `benchmark` field (when
present) is a string and whose metric fields hold numbers wherever a
renderer compares, divides or `.nf`-formats them.  On a record outside this
set CPython raises mid-render — e.g. a string `throughput_mbps` hits the
uncaught `TypeError` of `throughput > fastest_throughput` in
`generate_summary_report` — a crash path the fraction-valued `JVal.toQ`
does not represent, so exit-status guarantees are stated for well-typed
stores only. -/
def recordOk (run : JVal) : Bool :=
  run.isObj &&
  (match run.get? "benchmark" with
   | some (.jstr _) => true
   | some _ => false
   | none => true) &&
  durFieldOk run && run.optNumOk "throughput_mbps" && run.optNumOk "parallelism" &&
  run.optNumOk "runs" && run.optNumOk "partial_duration_seconds" &&
  run.optNumOk "resume_duration_seconds" && run.optNumOk "total_duration_seconds" &&
  run.optNumOk "file_size_bytes"

/-- Every record of the store is well-typed. -/
def resultsOk (r : Results) : Bool := r.all (fun kv => kv.2.all recordOk)

/-- The run crashes inside `generate_summary_report`: a `system_info.json`
exists but does not parse. -/
def sysInfoCrashB (files : List SrcFile) : Bool :=
  match files.find? (fun f => f.name == "system_info.json") with
  | some f => !f.parsedB
  | none => false

/-- The key column of the markdown tools table in emitted row order. -/
def mdToolsKeys (results : Results) : List String := (mdToolsEntries results).map (·.1)

/-- Mean durations of the markdown tools table in emitted row order. -/
def mdToolsMeans (results : Results) : List Q :=
  (mdToolsEntries results).map (fun e => (meanDurOf e.2.2).toQ)

/-- The key order the fixed `suite_tests` dict dictates: each present
configuration contributes one key per stored run, in dict order. -/
def fixedToolOrder (results : Results) : List String :=
  catMap
    (fun kc =>
      if (keysOf results).contains kc.1 then
        List.replicate (runsOf results kc.1).length kc.1
      else [])
    suiteConfigs

/-! ### The Statistics Engine (spec §4.3)

Modelled from the spec: no `summarize` function exists anywhere under
`scripts/` — the script only reprints statistics precomputed by the
benchmark harness — so the Statistics Engine contract is taken from the
specification text.  The standard deviation and the coefficient of
variation are represented by their squares to keep the definition
computable over `ℚ`. -/

inductive EmptyInputError where
  | emptyInput
deriving DecidableEq

structure StatSummary where
  mean : ℚ
  stdevSq : ℚ
  cvSq : ℚ
  median : ℚ
  minVal : ℚ
  maxVal : ℚ
deriving DecidableEq

/-- Modelled from the spec: `summarize(values) -> StatSummary` fails with the
empty-input error on an empty sequence, otherwise returns mean, population
variance (`stdevSq`), squared coefficient of variation (`(stdev/mean×100)²`,
0 when the mean is 0), median, min and max. -/
def summarize (values : List ℚ) : Except EmptyInputError StatSummary :=
  match values with
  | [] => .error .emptyInput
  | v :: vs =>
    let n : ℚ := ((vs.length + 1 : Nat) : ℚ)
    let mean := (v :: vs).sum / n
    let varp := ((v :: vs).map (fun x => (x - mean) ^ 2)).sum / n
    let sorted := sSort (fun a b => decide (a ≤ b)) (v :: vs)
    let len := vs.length + 1
    let median :=
      if len % 2 = 1 then sorted.getD (len / 2) 0
      else (sorted.getD (len / 2 - 1) 0 + sorted.getD (len / 2) 0) / 2
    .ok { mean := mean, stdevSq := varp,
          cvSq := if mean = 0 then 0 else varp / mean ^ 2 * 10000,
          median := median, minVal := sorted.headD 0, maxVal := sorted.getLastD 0 }

/-! ### The specification's claims, stated literally

Each `claimCk` formalises the claim text, to be proved or refuted against
the embedding above. -/

/-- C2 as stated: a run over a directory holding at least one recognized,
parseable result file writes a `summary.json` into it. -/
def claimC2 : Prop :=
  ∀ (dir : String) (files : List SrcFile),
    (∃ f ∈ files, matchesAny f.name = true ∧ f.parsedB = true) →
    ∃ content, Effect.fileWrite "summary.json" content ∈ (runMain dir (some files)).1

/-- C3 as stated (the zero/missing-baseline clause): when the throughput of
the baseline — the first entry in parameter-sorted order — is 0, the speedup
of every other entry is rendered as the marker "N/A", in the terminal
parallel table and in the markdown scaling table alike. -/
def claimC3 : Prop :=
  (∀ (l : List PEntry) (e : PEntry) (es : List PEntry), termSorted l = e :: es →
    e.tp.toQ.num = 0 → ∀ c ∈ (termSpeedupCells l).tail, c = "N/A") ∧
  (∀ (l : List MEntry) (e : MEntry) (es : List MEntry), mdSorted l = e :: es →
    e.tp.toQ.num = 0 → ∀ c ∈ (mdSpeedupCells l).tail, c = "N/A")

/-- C4 as stated: with a positive baseline, the rendered efficiency is
`speedup(p)/p × 100` per cent for entries with `p > 0`, and efficiency is
undefined — the explicit "N/A" marker — for entries without `p > 0`. -/
def claimC4 : Prop :=
  ∀ (l : List MEntry) (e : MEntry) (es : List MEntry), mdSorted l = e :: es →
    (0 : Q) < e.tp.toQ →
    mdEffCells l = (e :: es).map (fun x =>
      if (0 : Q) < x.p.toQ then fmtFixed 0 (x.tp.toQ / e.tp.toQ / x.p.toQ * 100) ++ "%"
      else "N/A")

/-- C5 as stated: at most one dispatch rule applies per file, so each parsed
file contributes at most one stored record. -/
def claimC5 : Prop :=
  ∀ files : List SrcFile,
    totalRuns (load_results files).1 ≤ (files.filter SrcFile.parsedB).length

/-- C6 as stated: the suite/tools tables of both renderers list entries in
ascending mean duration, parallel tables in ascending parallelism, resume
tables in lexicographic name order. -/
def claimC6 : Prop :=
  ∀ results : Results,
    ((suiteSorted results).map (fun e => e.meanDur.toQ)).Pairwise (· ≤ ·) ∧
    (mdToolsMeans results).Pairwise (· ≤ ·) ∧
    ((termSorted (parallelTestData results)).map (fun e => e.p.toQ)).Pairwise (· ≤ ·) ∧
    ((mdSorted (mdParallelData results)).map (fun e => e.p.toQ)).Pairwise (· ≤ ·) ∧
    (resumeKeysSorted results).Pairwise (fun a b => strLeB a b = true)

/-- C7 as stated: malformed result files only produce warnings naming them;
the process exits non-zero only when the directory is missing or nothing at
all was loaded; the two fatal messages differ. -/
def claimC7 : Prop :=
  (∀ (dir : String) (files : List SrcFile) (f : SrcFile) (msg : String),
    f ∈ files → f.data = .bad msg → matchesAny f.name = true →
    Effect.out (warnLine f.name msg) ∈ (runMain dir (some files)).1) ∧
  (∀ dir : String, (runMain dir none).2 ≠ 0) ∧
  (∀ (dir : String) (files : List SrcFile),
    (runMain dir (some files)).2 ≠ 0 → totalRuns (load_results files).1 = 0) ∧
  (∀ dir : String, dirMissingMsg dir ≠ noResultsMsg)

/-! ### Concrete inputs for counterexamples and witnesses -/

/-- One well-formed result file recognized by the `resume_` convention. -/
def resumeOkFile : SrcFile :=
  ⟨"resume_a.json", .ok (.jobj [("test", .jstr "a"), ("partial_duration_seconds", .jint 5),
    ("resume_duration_seconds", .jint 3), ("total_duration_seconds", .jint 8),
    ("file_size_bytes", .jint 512)])⟩

/-- C2: a directory with one recognized result file; the run succeeds. -/
def c2Files : List SrcFile := [resumeOkFile]

/-- C5: one file whose name matches both the `_stats.json` suffix rule and
the `tool_` prefix rule. -/
def c5Files : List SrcFile := [⟨"tool_x_stats.json", .ok (.jobj [("benchmark", .jstr "x")])⟩]

/-- C7: one good result file plus a malformed `system_info.json`. -/
def c7Files : List SrcFile := [resumeOkFile, ⟨"system_info.json", .bad "Expecting value"⟩]

/-- C7 witness: one malformed file matching the `tool_` rule plus one good
result file. -/
def c7WitnessFiles : List SrcFile := [⟨"tool_y.json", .bad "boom"⟩, resumeOkFile]

/-- C3: parallel entries at p=1 and p=4 whose baseline (p=1) throughput is 0. -/
def c3TermData : List PEntry :=
  [⟨.jint 1, .jint 10, .jint 0, "parallel_rsync_p1"⟩,
   ⟨.jint 4, .jint 5, .jint 1200, "parallel_rsync_p4"⟩]

def c3MdData : List MEntry :=
  [⟨.jint 1, .jint 10, .jint 0⟩, ⟨.jint 4, .jint 5, .jint 1200⟩]

/-- C4: one parallel record with parallelism level 0 and positive throughput. -/
def c4MdData : List MEntry := [⟨.jint 0, .jint 10, .jint 400⟩]

/-- The spec's end-to-end scenario: p=1 at 400 Mbps, p=4 at 1200 Mbps. -/
def c4Scenario : List MEntry :=
  [⟨.jint 1, .jint 20, .jint 400⟩, ⟨.jint 4, .jint 7, .jint 1200⟩]

/-- C6: the fixed markdown order (rsync_default first) conflicts with the
duration order (rsync_compress is faster). -/
def c6Results : Results :=
  [("rsync_default", [.jobj [("duration_seconds", .jfloat ⟨20, 1⟩), ("throughput_mbps", .jint 100)]]),
   ("rsync_compress", [.jobj [("duration_seconds", .jfloat ⟨5, 1⟩), ("throughput_mbps", .jint 400)]])]

/-- C9: a parallel record whose JSON lacks the `parallelism` field. -/
def c9Run : JVal := .jobj [("benchmark", .jstr "parallel_rsync"), ("throughput_mbps", .jint 500)]

/-! ### Sortedness of the stable sort -/

theorem mem_sInsert {α : Type} (le : α → α → Bool) (x a : α) (l : List α) :
    a ∈ sInsert le x l ↔ a = x ∨ a ∈ l := by
  induction l with
  | nil => simp [sInsert]
  | cons y ys ih =>
    simp only [sInsert]
    split
    · simp [List.mem_cons]
    · simp only [List.mem_cons, ih]
      tauto

theorem pairwise_sInsert {α : Type} (le : α → α → Bool)
    (htot : ∀ a b, le a b = true ∨ le b a = true)
    (htrans : ∀ a b c, le a b = true → le b c = true → le a c = true)
    (x : α) (l : List α) (h : l.Pairwise (fun a b => le a b = true)) :
    (sInsert le x l).Pairwise (fun a b => le a b = true) := by
  induction l with
  | nil => simp [sInsert]
  | cons y ys ih =>
    rcases List.pairwise_cons.mp h with ⟨hy, hys⟩
    simp only [sInsert]
    by_cases hxy : le x y = true
    · rw [if_pos hxy]
      refine List.Pairwise.cons ?_ h
      intro z hz
      rcases List.mem_cons.mp hz with rfl | hz
      · exact hxy
      · exact htrans _ _ _ hxy (hy z hz)
    · rw [if_neg hxy]
      refine List.Pairwise.cons ?_ (ih hys)
      intro z hz
      rcases (mem_sInsert le x z ys).mp hz with rfl | hz
      · rcases htot z y with h1 | h1
        · exact absurd h1 hxy
        · exact h1
      · exact hy z hz

theorem pairwise_sSort {α : Type} (le : α → α → Bool)
    (htot : ∀ a b, le a b = true ∨ le b a = true)
    (htrans : ∀ a b c, le a b = true → le b c = true → le a c = true)
    (l : List α) : (sSort le l).Pairwise (fun a b => le a b = true) := by
  induction l with
  | nil => simp [sSort]
  | cons x xs ih => exact pairwise_sInsert le htot htrans x _ ih

/-! #### The two comparators used by the script are total preorders -/

theorem posNorm_den_pos (q : Q) : 0 < q.posNorm.den := by
  unfold Q.posNorm
  split
  · assumption
  · split
    · exact Int.zero_lt_one
    · simp only
      omega

theorem toQ_den_pos (v : JVal) : 0 < v.toQ.den := by
  cases v with
  | jint n => exact Int.zero_lt_one
  | jfloat q => exact posNorm_den_pos q
  | jstr s => exact Int.zero_lt_one
  | jbool b => cases b <;> exact Int.zero_lt_one
  | jobj l => exact Int.zero_lt_one

theorem Qle_trans {a b c : Q} (ha : 0 < a.den) (hb : 0 < b.den) (hc : 0 < c.den)
    (h1 : a ≤ b) (h2 : b ≤ c) : a ≤ c := by
  have h1' : a.num * b.den ≤ b.num * a.den := h1
  have h2' : b.num * c.den ≤ c.num * b.den := h2
  show a.num * c.den ≤ c.num * a.den
  have k1 := mul_le_mul_of_nonneg_right h1' hc.le
  have k2 := mul_le_mul_of_nonneg_right h2' ha.le
  have key : a.num * c.den * b.den ≤ c.num * a.den * b.den := by nlinarith
  exact le_of_mul_le_mul_right key hb

theorem qleKey_total {α : Type} (key : α → Q) (a b : α) :
    qleKey key a b = true ∨ qleKey key b a = true := by
  unfold qleKey
  rcases Int.le_total ((key a).num * (key b).den) ((key b).num * (key a).den) with h | h
  · left; exact decide_eq_true h
  · right; exact decide_eq_true h

theorem qleKey_trans {α : Type} (key : α → Q) (hden : ∀ a, 0 < (key a).den) (a b c : α)
    (h1 : qleKey key a b = true) (h2 : qleKey key b c = true) : qleKey key a c = true := by
  unfold qleKey at *
  exact decide_eq_true (Qle_trans (hden a) (hden b) (hden c) (of_decide_eq_true h1)
    (of_decide_eq_true h2))

theorem charsLe_total : ∀ a b : List Char, charsLe a b = true ∨ charsLe b a = true := by
  intro a
  induction a with
  | nil => intro b; left; rfl
  | cons x xs ih =>
    intro b
    cases b with
    | nil => right; rfl
    | cons y ys =>
      simp only [charsLe]
      rcases Nat.lt_trichotomy x.toNat y.toNat with h | h | h
      · left; simp [h]
      · have h1 : ¬ x.toNat < y.toNat := by omega
        have h2 : ¬ y.toNat < x.toNat := by omega
        simp only [if_neg h1, if_neg h2]
        exact ih ys
      · right; simp [h]

theorem charsLe_trans : ∀ a b c : List Char,
    charsLe a b = true → charsLe b c = true → charsLe a c = true := by
  intro a
  induction a with
  | nil => intro b c _ _; rfl
  | cons x xs ih =>
    intro b c h1 h2
    cases b with
    | nil => exact absurd h1 (by simp [charsLe])
    | cons y ys =>
      cases c with
      | nil => exact absurd h2 (by simp [charsLe])
      | cons z zs =>
        simp only [charsLe] at h1 h2 ⊢
        by_cases hxy : x.toNat < y.toNat
        · by_cases hyz : y.toNat < z.toNat
          · have hxz : x.toNat < z.toNat := by omega
            simp [hxz]
          · by_cases hzy : z.toNat < y.toNat
            · rw [if_neg hyz, if_pos hzy] at h2
              exact absurd h2 (by simp)
            · have hxz : x.toNat < z.toNat := by omega
              simp [hxz]
        · by_cases hyx : y.toNat < x.toNat
          · rw [if_neg hxy, if_pos hyx] at h1
            exact absurd h1 (by simp)
          · rw [if_neg hxy, if_neg hyx] at h1
            by_cases hyz : y.toNat < z.toNat
            · have hxz : x.toNat < z.toNat := by omega
              simp [hxz]
            · by_cases hzy : z.toNat < y.toNat
              · rw [if_neg hyz, if_pos hzy] at h2
                exact absurd h2 (by simp)
              · rw [if_neg hyz, if_neg hzy] at h2
                have hxz : ¬ x.toNat < z.toNat := by omega
                have hzx : ¬ z.toNat < x.toNat := by omega
                rw [if_neg hxz, if_neg hzx]
                exact ih ys zs h1 h2

theorem strLeB_total (a b : String) : strLeB a b = true ∨ strLeB b a = true :=
  charsLe_total a.data b.data

theorem strLeB_trans (a b c : String) (h1 : strLeB a b = true) (h2 : strLeB b c = true) :
    strLeB a c = true :=
  charsLe_trans a.data b.data c.data h1 h2

/-! ### Structure of `load_results` -/

theorem foldl_ingest_snd (k : String → JVal → String) (l : List SrcFile)
    (acc : Results × List String) :
    (l.foldl (ingest k) acc).2 = acc.2 ++ l.filterMap warnOf := by
  induction l generalizing acc with
  | nil => simp
  | cons f fs ih =>
    cases hf : f.data with
    | ok j => simp [ingest, hf, ih, warnOf]
    | bad e => simp [ingest, hf, ih, warnOf]

theorem totalRuns_addResult (r : Results) (k : String) (v : JVal) :
    totalRuns (addResult r k v) = totalRuns r + 1 := by
  induction r with
  | nil => simp [addResult, totalRuns]
  | cons kv rest ih =>
    simp only [addResult]
    split
    · simp [totalRuns]
      omega
    · simp only [totalRuns, List.map_cons, List.sum_cons] at ih ⊢
      omega

theorem foldl_ingest_fst (k : String → JVal → String) (l : List SrcFile)
    (acc : Results × List String) :
    totalRuns (l.foldl (ingest k) acc).1 = totalRuns acc.1 + l.countP SrcFile.parsedB := by
  induction l generalizing acc with
  | nil => simp
  | cons f fs ih =>
    rw [List.foldl_cons, ih, List.countP_cons]
    cases hf : f.data with
    | ok j =>
      have hp : f.parsedB = true := by simp [SrcFile.parsedB, hf]
      simp only [ingest, hf, totalRuns_addResult, hp, if_pos]
      omega
    | bad e =>
      have hp : f.parsedB = false := by simp [SrcFile.parsedB, hf]
      simp [ingest, hf, hp]

theorem load_results_snd (files : List SrcFile) :
    (load_results files).2 =
      (files.filter (fun f => globStats f.name)).filterMap warnOf ++
      ((files.filter (fun f => globTool f.name)).filterMap warnOf ++
       ((files.filter (fun f => globParallel f.name)).filterMap warnOf ++
        (files.filter (fun f => globResume f.name)).filterMap warnOf)) := by
  unfold load_results runPass
  rw [foldl_ingest_snd, foldl_ingest_snd, foldl_ingest_snd, foldl_ingest_snd]
  simp [List.append_assoc]

theorem load_results_totalRuns (files : List SrcFile) :
    totalRuns (load_results files).1 =
      (files.filter (fun f => globStats f.name)).countP SrcFile.parsedB +
      (files.filter (fun f => globTool f.name)).countP SrcFile.parsedB +
      (files.filter (fun f => globParallel f.name)).countP SrcFile.parsedB +
      (files.filter (fun f => globResume f.name)).countP SrcFile.parsedB := by
  unfold load_results runPass
  rw [foldl_ingest_fst, foldl_ingest_fst, foldl_ingest_fst, foldl_ingest_fst]
  simp only [totalRuns, List.map_nil, List.sum_nil]
  omega

theorem countP_filter_toSum (g : SrcFile → Bool) (files : List SrcFile) :
    (files.filter g).countP SrcFile.parsedB =
      (files.map (fun f => if f.parsedB && g f then 1 else 0)).sum := by
  induction files with
  | nil => rfl
  | cons f fs ih =>
    simp only [List.filter_cons, List.map_cons, List.sum_cons]
    cases hg : g f
    · simp only [hg, Bool.and_false, if_neg (by simp : ¬ (false = true))]
      simpa using ih
    · cases hp : f.parsedB <;> simp [hg, hp, List.countP_cons, ih] <;> omega

theorem sum_map_add4 {α : Type} (f1 f2 f3 f4 g : α → Nat)
    (h : ∀ a, f1 a + f2 a + f3 a + f4 a = g a) (l : List α) :
    (l.map f1).sum + (l.map f2).sum + (l.map f3).sum + (l.map f4).sum = (l.map g).sum := by
  induction l with
  | nil => simp
  | cons a as ih =>
    simp only [List.map_cons, List.sum_cons]
    have := h a
    omega

theorem load_results_record_count (files : List SrcFile) :
    totalRuns (load_results files).1 =
      (files.map (fun f => if f.parsedB then matchCount f.name else 0)).sum := by
  rw [load_results_totalRuns, countP_filter_toSum, countP_filter_toSum, countP_filter_toSum,
    countP_filter_toSum]
  refine sum_map_add4 _ _ _ _ _ ?_ files
  intro f
  cases hp : f.parsedB
  · simp [hp]
  · simp [hp, matchCount]

theorem groups_ne_nil_addResult (r : Results) (k : String) (v : JVal)
    (h : ∀ kv ∈ r, kv.2 ≠ []) : ∀ kv ∈ addResult r k v, kv.2 ≠ [] := by
  induction r with
  | nil =>
    intro kv hkv
    simp only [addResult, List.mem_singleton] at hkv
    subst hkv
    simp
  | cons kv0 rest ih =>
    obtain ⟨k0, vs⟩ := kv0
    simp only [addResult]
    split
    · intro kv hkv
      rcases List.mem_cons.mp hkv with rfl | hm
      · simp
      · exact h kv (List.mem_cons_of_mem _ hm)
    · intro kv hkv
      rcases List.mem_cons.mp hkv with rfl | hm
      · exact h _ (List.mem_cons_self _ _)
      · exact ih (fun x hx => h x (List.mem_cons_of_mem _ hx)) kv hm

theorem foldl_ingest_groups (k : String → JVal → String) (l : List SrcFile)
    (acc : Results × List String) (h : ∀ kv ∈ acc.1, kv.2 ≠ []) :
    ∀ kv ∈ (l.foldl (ingest k) acc).1, kv.2 ≠ [] := by
  induction l generalizing acc with
  | nil => exact h
  | cons f fs ih =>
    cases hf : f.data with
    | ok j =>
      refine ih (ingest k acc f) ?_
      simp only [ingest, hf]
      exact groups_ne_nil_addResult _ _ _ h
    | bad e =>
      refine ih (ingest k acc f) ?_
      simp only [ingest, hf]
      exact h

theorem load_results_groups (files : List SrcFile) :
    ∀ kv ∈ (load_results files).1, kv.2 ≠ [] := by
  unfold load_results runPass
  refine foldl_ingest_groups _ _ _ (foldl_ingest_groups _ _ _ (foldl_ingest_groups _ _ _
    (foldl_ingest_groups _ _ _ ?_)))
  intro kv hkv
  simp at hkv

theorem totalRuns_zero_iff_of_groups (r : Results) (h : ∀ kv ∈ r, kv.2 ≠ []) :
    totalRuns r = 0 ↔ r = [] := by
  cases r with
  | nil => simp [totalRuns]
  | cons kv rest =>
    simp only [totalRuns, List.map_cons, List.sum_cons]
    have hne := h kv (List.mem_cons_self _ _)
    have : 0 < kv.2.length := List.length_pos.mpr hne
    constructor
    · intro h0
      omega
    · intro h0
      exact absurd h0 (by simp)

/-! ### Shape of the effect trace of `main` -/

theorem runMain_all_out (dir : String) (fs : Option (List SrcFile)) :
    ∀ e ∈ (runMain dir fs).1, e.isOut = true := by
  intro e he
  rcases List.mem_map.mp he with ⟨s, _, rfl⟩
  rfl

theorem out_mem_runMain_iff (dir : String) (fs : Option (List SrcFile)) (s : String) :
    Effect.out s ∈ (runMain dir fs).1 ↔ s ∈ (runMainParts dir fs).1 := by
  constructor
  · intro h
    rcases List.mem_map.mp h with ⟨t, ht, he⟩
    cases he
    exact ht
  · intro h
    exact List.mem_map_of_mem _ h

/-! ### Small facts about values and cells -/

theorem Q_zero_lt_iff (q : Q) : (0 : Q) < q ↔ 0 < q.num := by
  show 0 * q.den < q.num * 1 ↔ 0 < q.num
  omega

theorem toQ_num_of_numOk_jint (n : Int) : (JVal.jint n).toQ.num = n := rfl

theorem pyTruthy_true_of_pos (v : JVal) (h : v.numOk = true) (hp : 0 < v.toQ.num) :
    pyTruthy v = true := by
  cases v with
  | jint n =>
    simp only [JVal.toQ] at hp
    simp [pyTruthy]
    omega
  | jfloat q =>
    simp only [JVal.numOk, decide_eq_true_eq] at h
    simp only [JVal.toQ, Q.posNorm, if_pos h] at hp
    simp [pyTruthy]
    omega
  | jstr s => simp [JVal.numOk] at h
  | jbool b => simp [JVal.numOk] at h
  | jobj l => simp [JVal.numOk] at h

theorem pyTruthy_false_of_zero (v : JVal) (h : v.numOk = true) (hz : v.toQ.num = 0) :
    pyTruthy v = false := by
  cases v with
  | jint n =>
    simp only [JVal.toQ] at hz
    simp [pyTruthy, hz]
  | jfloat q =>
    simp only [JVal.numOk, decide_eq_true_eq] at h
    simp only [JVal.toQ, Q.posNorm, if_pos h] at hz
    simp [pyTruthy, hz]
  | jstr s => simp [JVal.numOk] at h
  | jbool b => simp [JVal.numOk] at h
  | jobj l => simp [JVal.numOk] at h

theorem map_const_replicate {α : Type} (l : List α) (c : String) :
    l.map (fun _ => c) = List.replicate l.length c := by
  induction l with
  | nil => rfl
  | cons a as ih => simp [List.replicate_succ, ih]

theorem map_catMap {α β γ : Type} (f : β → γ) (g : α → List β) (l : List α) :
    (catMap g l).map f = catMap (fun a => (g a).map f) l := by
  induction l with
  | nil => rfl
  | cons a as ih => simp [catMap, ih]

/-! ### The baseline threading of the two parallel tables -/

theorem termRowCellGo_some (v : JVal) (l : List PEntry) :
    termRowCellGo (some v) l = l.map (termRowCell (some v)) := by
  induction l with
  | nil => rfl
  | cons x xs ih => simp [termRowCellGo, ih]

theorem termRowCellGo_none_cons (x : PEntry) (xs : List PEntry) :
    termRowCellGo none (x :: xs) =
      termRowCell (some x.tp) x :: xs.map (termRowCell (some x.tp)) := by
  simp [termRowCellGo, termRowCellGo_some]

/-- With the sorted entries in view, the terminal speedup cells are a map
over them against the first entry's throughput as baseline. -/
theorem termSpeedupCells_eq (l : List PEntry) (e : PEntry) (es : List PEntry)
    (h : termSorted l = e :: es) :
    termSpeedupCells l = (e :: es).map (fun x => termSpeedupCell (some e.tp) x.tp) := by
  unfold termSpeedupCells
  rw [h, termRowCellGo_none_cons, List.map_cons, List.map_map, List.map_cons]
  rfl

theorem mdBaseline_eq (l : List MEntry) (e : MEntry) (es : List MEntry)
    (h : mdSorted l = e :: es) : mdBaseline l = e.tp := by
  unfold mdBaseline
  rw [h]

/-! ### Branch behaviour of `main` -/

theorem isEmpty_eq_true_iff {α : Type} (l : List α) : l.isEmpty = true ↔ l = [] := by
  cases l <;> simp

theorem gsr_ok_of_noCrash (files : List SrcFile) (results : Results)
    (h : sysInfoCrashB files = false) :
    ∃ rep, generate_summary_report files results = .ok rep := by
  unfold generate_summary_report
  unfold sysInfoCrashB at h
  rcases hf : files.find? (fun f => f.name == "system_info.json") with _ | f
  · rw [hf]
    exact ⟨_, rfl⟩
  · rw [hf] at h
    rw [hf]
    dsimp only at h ⊢
    rcases hd : f.data with j | e
    · exact ⟨_, rfl⟩
    · simp [SrcFile.parsedB, hd] at h

theorem gsr_error_of_crash (files : List SrcFile) (results : Results)
    (h : sysInfoCrashB files = true) :
    ∃ hdr, generate_summary_report files results = .error hdr := by
  unfold generate_summary_report
  unfold sysInfoCrashB at h
  rcases hf : files.find? (fun f => f.name == "system_info.json") with _ | f
  · rw [hf] at h
    cases h
  · rw [hf] at h
    rw [hf]
    dsimp only at h ⊢
    rcases hd : f.data with j | e
    · simp [SrcFile.parsedB, hd] at h
    · exact ⟨_, rfl⟩

theorem runMainParts_none (dir : String) : runMainParts dir none = ([dirMissingMsg dir], 1) := rfl

theorem runMainParts_zero (dir : String) (files : List SrcFile)
    (h : totalRuns (load_results files).1 = 0) :
    runMainParts dir (some files) = ((load_results files).2 ++ [noResultsMsg], 1) := by
  have he : (load_results files).1 = [] :=
    (totalRuns_zero_iff_of_groups _ (load_results_groups files)).mp h
  unfold runMainParts
  dsimp only
  rw [if_pos ((isEmpty_eq_true_iff _).mpr he)]

theorem runMainParts_pos_code (dir : String) (files : List SrcFile)
    (h : 0 < totalRuns (load_results files).1) (hok : sysInfoCrashB files = false) :
    (runMainParts dir (some files)).2 = 0 := by
  have hne : (load_results files).1 ≠ [] := by
    intro h0
    rw [(totalRuns_zero_iff_of_groups _ (load_results_groups files)).mpr h0] at h
    omega
  obtain ⟨rep, hrep⟩ := gsr_ok_of_noCrash files (load_results files).1 hok
  unfold runMainParts
  dsimp only
  rw [if_neg (by simpa [isEmpty_eq_true_iff] using hne), hrep]

theorem runMainParts_crash_code (dir : String) (files : List SrcFile)
    (h : sysInfoCrashB files = true) : (runMainParts dir (some files)).2 = 1 := by
  unfold runMainParts
  dsimp only
  by_cases hE : (load_results files).1.isEmpty = true
  · rw [if_pos hE]
  · rw [if_neg hE]
    obtain ⟨hdr, hrep⟩ := gsr_error_of_crash files (load_results files).1 h
    rw [hrep]

theorem warn_mem_load (files : List SrcFile) (f : SrcFile) (msg : String)
    (hf : f ∈ files) (hd : f.data = .bad msg) (hm : matchesAny f.name = true) :
    warnLine f.name msg ∈ (load_results files).2 := by
  rw [load_results_snd]
  have hw : warnOf f = some (warnLine f.name msg) := by simp [warnOf, hd]
  simp only [matchesAny, Bool.or_eq_true] at hm
  simp only [List.mem_append, List.mem_filterMap]
  rcases hm with ((h1 | h2) | h3) | h4
  · exact Or.inl ⟨f, List.mem_filter.mpr ⟨hf, h1⟩, hw⟩
  · exact Or.inr (Or.inl ⟨f, List.mem_filter.mpr ⟨hf, h2⟩, hw⟩)
  · exact Or.inr (Or.inr (Or.inl ⟨f, List.mem_filter.mpr ⟨hf, h3⟩, hw⟩))
  · exact Or.inr (Or.inr (Or.inr ⟨f, List.mem_filter.mpr ⟨hf, h4⟩, hw⟩))

theorem warn_mem_runMainParts (dir : String) (files : List SrcFile) (f : SrcFile) (msg : String)
    (hf : f ∈ files) (hd : f.data = .bad msg) (hm : matchesAny f.name = true) :
    warnLine f.name msg ∈ (runMainParts dir (some files)).1 := by
  have hw := warn_mem_load files f msg hf hd hm
  unfold runMainParts
  dsimp only
  by_cases hE : (load_results files).1.isEmpty = true
  · rw [if_pos hE]
    exact List.mem_append_left _ hw
  · rw [if_neg hE]
    rcases hrep : generate_summary_report files (load_results files).1 with hdr | rep
    · simp [List.mem_append, hw]
    · simp [List.mem_append, hw]

theorem noResults_mem_runMainParts (dir : String) (files : List SrcFile)
    (h : totalRuns (load_results files).1 = 0) :
    noResultsMsg ∈ (runMainParts dir (some files)).1 := by
  rw [runMainParts_zero dir files h]
  simp

theorem dirMissing_ne_noResults (dir : String) : dirMissingMsg dir ≠ noResultsMsg := by
  intro h
  have hl := congrArg String.length h
  have h1 : ("Error: Results directory '").length = 26 := rfl
  have h2 : ("' not found").length = 11 := rfl
  have h3 : noResultsMsg.length = 27 := rfl
  rw [dirMissingMsg, String.length_append, String.length_append, h1, h2, h3] at hl
  omega

theorem catMap_congr {α β : Type} (f g : α → List β) (l : List α) (h : ∀ a, f a = g a) :
    catMap f l = catMap g l := by
  induction l with
  | nil => rfl
  | cons a as ih => simp [catMap, h, ih]

/-! ## The claims -/

/-- C1: for every empty input sequence, the Statistics Engine's `summarize`
fails with the `EmptyInputError`; it never returns a (zero-filled)
`StatSummary` for an empty list of values. -/
theorem c1_summarize_empty :
    summarize ([] : List ℚ) = .error .emptyInput ∧
    ∀ s : StatSummary, summarize ([] : List ℚ) ≠ .ok s :=
  ⟨rfl, fun s h => by simp [summarize] at h⟩

/-- C2, counterexample: a directory with a recognized, parseable result file
on which the run writes nothing at all — no `summary.json` appears in the
effect trace, refuting the stated claim. -/
theorem c2_counterexample :
    (∃ f ∈ c2Files, matchesAny f.name = true ∧ f.parsedB = true) ∧
    (∀ content, Effect.fileWrite "summary.json" content ∉
      (runMain "results" (some c2Files)).1) ∧
    ¬ claimC2 := by
  have hnw : ∀ (dir : String) (fs : Option (List SrcFile)) (p c : String),
      Effect.fileWrite p c ∉ (runMain dir fs).1 := by
    intro dir fs p c hmem
    have := runMain_all_out dir fs _ hmem
    simp [Effect.isOut] at this
  refine ⟨⟨resumeOkFile, by simp [c2Files], by decide, rfl⟩, fun c => hnw _ _ _ _, ?_⟩
  intro h
  rcases h "results" c2Files ⟨resumeOkFile, by simp [c2Files], by decide, rfl⟩ with ⟨c, hc⟩
  exact hnw _ _ _ _ hc

/-- C2, amended: the script persists no artifact whatsoever — every effect
of every run (any directory, any file set) is a print to stdout; the
reports exist only on stdout and no `summary.json` is ever written. -/
theorem c2_no_persisted_artifact :
    ∀ (dir : String) (fs : Option (List SrcFile)),
      (runMain dir fs).1.all Effect.isOut = true := by
  intro dir fs
  rw [List.all_eq_true]
  exact runMain_all_out dir fs

/-- C3, counterexample: parallel data whose parameter-sorted baseline (p=1)
has throughput 0; the markdown scaling table renders the p=4 entry's speedup
as the number "1.0x", not as "N/A". -/
theorem c3_counterexample :
    (mdSorted c3MdData).map (fun x => x.tp.toQ.num) = [0, 1200] ∧
    mdSpeedupCells c3MdData = ["1.0x", "1.0x"] ∧
    ¬ claimC3 := by
  refine ⟨rfl, rfl, ?_⟩
  intro h
  have h2 := h.2 c3MdData ⟨.jint 1, .jint 10, .jint 0⟩ [⟨.jint 4, .jint 5, .jint 1200⟩] rfl rfl
  have h3 := h2 "1.0x"
    (by rw [show (mdSpeedupCells c3MdData).tail = ["1.0x"] from rfl]
        exact List.mem_singleton.mpr rfl)
  exact absurd h3 (by decide)

/-- C3, amended: speedup is throughput over the first parameter-sorted
entry's throughput; when that baseline throughput is 0 (or missing, which
defaults to 0), the terminal parallel table renders every speedup cell as
the empty string and the markdown scaling table renders every speedup cell
as the number "1.0x" — the marker "N/A" is never produced. -/
theorem c3_speedup_rendering :
    (∀ (l : List PEntry) (e : PEntry) (es : List PEntry), termSorted l = e :: es →
      e.tp.numOk = true →
      ((e.tp.toQ.num = 0 → termSpeedupCells l = List.replicate (es.length + 1) "") ∧
       (0 < e.tp.toQ.num → termSpeedupCells l = (e :: es).map (fun x =>
         if (0 : Q) < x.tp.toQ then fmtFixed 1 (x.tp.toQ / e.tp.toQ) ++ "x" else "")))) ∧
    (∀ (l : List MEntry) (e : MEntry) (es : List MEntry), mdSorted l = e :: es →
      ((e.tp.toQ.num = 0 → mdSpeedupCells l = List.replicate (es.length + 1) "1.0x") ∧
       (0 < e.tp.toQ.num → mdSpeedupCells l = (e :: es).map (fun x =>
         fmtFixed 1 (x.tp.toQ / e.tp.toQ) ++ "x")))) := by
  constructor
  · intro l e es hsort hok
    have hcells := termSpeedupCells_eq l e es hsort
    constructor
    · intro hz
      have ht := pyTruthy_false_of_zero e.tp hok hz
      rw [hcells]
      have hc : (fun x : PEntry => termSpeedupCell (some e.tp) x.tp) =
          (fun _ : PEntry => "") := by
        funext x
        simp [termSpeedupCell, ht]
      rw [hc, map_const_replicate]
      simp
    · intro hp
      have ht := pyTruthy_true_of_pos e.tp hok hp
      rw [hcells]
      have hc : (fun x : PEntry => termSpeedupCell (some e.tp) x.tp) =
          (fun x : PEntry =>
            if (0 : Q) < x.tp.toQ then fmtFixed 1 (x.tp.toQ / e.tp.toQ) ++ "x" else "") := by
        funext x
        simp [termSpeedupCell, ht]
      rw [hc]
  · intro l e es hsort
    have hb := mdBaseline_eq l e es hsort
    constructor
    · intro hz
      unfold mdSpeedupCells
      rw [hsort, hb]
      have hlt : ¬ ((0 : Q) < e.tp.toQ) := by
        rw [Q_zero_lt_iff]
        omega
      have hc : (fun x : MEntry => fmtFixed 1 (mdSpeedupVal e.tp x) ++ "x") =
          (fun _ : MEntry => "1.0x") := by
        funext x
        rw [mdSpeedupVal, if_neg hlt]
        rfl
      rw [hc, map_const_replicate]
      simp
    · intro hp
      unfold mdSpeedupCells
      rw [hsort, hb]
      have hlt : (0 : Q) < e.tp.toQ := (Q_zero_lt_iff _).mpr hp
      have hc : (fun x : MEntry => fmtFixed 1 (mdSpeedupVal e.tp x) ++ "x") =
          (fun x : MEntry => fmtFixed 1 (x.tp.toQ / e.tp.toQ) ++ "x") := by
        funext x
        rw [mdSpeedupVal, if_pos hlt]
      rw [hc]

/-- C3, witness: concrete zero-baseline parallel data evaluated through the
amended theorem. -/
theorem c3_witness :
    termSpeedupCells c3TermData = ["", ""] ∧
    mdSpeedupCells c3MdData = ["1.0x", "1.0x"] := by
  constructor
  · have h := (c3_speedup_rendering.1 c3TermData ⟨.jint 1, .jint 10, .jint 0, "parallel_rsync_p1"⟩
      [⟨.jint 4, .jint 5, .jint 1200, "parallel_rsync_p4"⟩] rfl rfl).1 rfl
    exact h.trans rfl
  · have h := (c3_speedup_rendering.2 c3MdData ⟨.jint 1, .jint 10, .jint 0⟩
      [⟨.jint 4, .jint 5, .jint 1200⟩] rfl).1 rfl
    exact h.trans rfl

/-- C4, counterexample: a parallel record with parallelism level 0 whose
markdown efficiency cell is the defined number "100%", not the undefined
marker the claim requires for p ≤ 0. -/
theorem c4_counterexample :
    mdEffCells c4MdData = ["100%"] ∧ ¬ claimC4 := by
  refine ⟨rfl, ?_⟩
  intro h
  have h2 := h c4MdData ⟨.jint 0, .jint 10, .jint 400⟩ [] rfl (by decide)
  exact absurd h2 (by decide)

/-- C4, amended: for every entry of the markdown scaling table with p > 0
the rendered efficiency is `speedup(p)/p × 100` per cent; for p ≤ 0 the code
renders the fallback "100%" instead of leaving efficiency undefined.  The
spec's scenario (p=1 at 400 Mbps, p=4 at 1200 Mbps) yields speedups
1.0x/3.0x and efficiencies 100%/75%. -/
theorem c4_efficiency_formula :
    (∀ (l : List MEntry) (e : MEntry) (es : List MEntry), mdSorted l = e :: es →
      mdEffCells l = (e :: es).map (fun x =>
        fmtFixed 0 (if (0 : Q) < x.p.toQ then mdSpeedupVal e.tp x / x.p.toQ * 100 else 100)
          ++ "%")) ∧
    mdSpeedupCells c4Scenario = ["1.0x", "3.0x"] ∧
    mdEffCells c4Scenario = ["100%", "75%"] := by
  refine ⟨?_, rfl, rfl⟩
  intro l e es hsort
  unfold mdEffCells
  rw [hsort, mdBaseline_eq l e es hsort]
  simp only [mdEffVal]

/-- C4, witness: the amended theorem evaluated on the scenario data and on a
p=0 record. -/
theorem c4_witness :
    mdEffCells c4Scenario = ["100%", "75%"] ∧ mdEffCells c4MdData = ["100%"] := by
  constructor
  · exact (c4_efficiency_formula.1 c4Scenario ⟨.jint 1, .jint 20, .jint 400⟩
      [⟨.jint 4, .jint 7, .jint 1200⟩] rfl).trans rfl
  · exact (c4_efficiency_formula.1 c4MdData ⟨.jint 0, .jint 10, .jint 400⟩ [] rfl).trans rfl

/-- C5, counterexample: the single file `tool_x_stats.json` matches both the
`_stats.json` suffix pass and the `tool_` prefix pass and is stored twice —
more records than parsed files, refuting one-record-per-file dispatch. -/
theorem c5_counterexample :
    totalRuns (load_results c5Files).1 = 2 ∧
    (c5Files.filter SrcFile.parsedB).length = 1 ∧
    ¬ claimC5 := by
  refine ⟨rfl, rfl, ?_⟩
  intro h
  exact absurd (h c5Files) (by decide)

/-- C5, amended: the four dispatch patterns are applied as independent
scans, not by priority — every parsed file is ingested once per pattern its
name matches (and an unparseable file contributes nothing), so a file
matching two conventions is stored twice. -/
theorem c5_ingestion_count :
    ∀ files : List SrcFile,
      totalRuns (load_results files).1 =
        (files.map (fun f => if f.parsedB then matchCount f.name else 0)).sum :=
  load_results_record_count

/-- C6, counterexample: with `rsync_default` slower (20 s) than
`rsync_compress` (5 s), the markdown tools table still lists
`rsync_default` first — its rows are not in ascending mean duration. -/
theorem c6_counterexample :
    mdToolsMeans c6Results = [⟨20, 1⟩, ⟨5, 1⟩] ∧ ¬ claimC6 := by
  refine ⟨rfl, ?_⟩
  intro h
  have h2 := (h c6Results).2.1
  rw [show mdToolsMeans c6Results = [⟨20, 1⟩, ⟨5, 1⟩] from rfl] at h2
  rcases List.pairwise_cons.mp h2 with ⟨h20, _⟩
  exact absurd (h20 ⟨5, 1⟩ (List.mem_singleton.mpr rfl)) (by decide)

/-- C6, amended: the terminal suite table is in ascending mean duration,
both parallel tables in ascending parallelism and the resume tables in
lexicographic name order as claimed; the markdown tools table, however,
follows the fixed `suite_tests` configuration order regardless of
durations. -/
theorem c6_display_order :
    ∀ results : Results,
      ((suiteSorted results).map (fun e => e.meanDur.toQ)).Pairwise (· ≤ ·) ∧
      ((termSorted (parallelTestData results)).map (fun e => e.p.toQ)).Pairwise (· ≤ ·) ∧
      ((mdSorted (mdParallelData results)).map (fun e => e.p.toQ)).Pairwise (· ≤ ·) ∧
      (resumeKeysSorted results).Pairwise (fun a b => strLeB a b = true) ∧
      mdToolsKeys results = fixedToolOrder results := by
  intro results
  refine ⟨?_, ?_, ?_, ?_, ?_⟩
  · rw [List.pairwise_map]
    exact (pairwise_sSort _ (qleKey_total _) (qleKey_trans _ (fun a => toQ_den_pos _))
      (suiteEntries results)).imp (fun h => of_decide_eq_true h)
  · rw [List.pairwise_map]
    exact (pairwise_sSort _ (qleKey_total _) (qleKey_trans _ (fun a => toQ_den_pos _))
      (parallelTestData results)).imp (fun h => of_decide_eq_true h)
  · rw [List.pairwise_map]
    exact (pairwise_sSort _ (qleKey_total _) (qleKey_trans _ (fun a => toQ_den_pos _))
      (mdParallelData results)).imp (fun h => of_decide_eq_true h)
  · exact pairwise_sSort strLeB strLeB_total strLeB_trans _
  · unfold mdToolsKeys mdToolsEntries fixedToolOrder
    rw [map_catMap]
    refine catMap_congr _ _ _ ?_
    intro kc
    by_cases hc : (keysOf results).contains kc.1
    · rw [if_pos hc, if_pos hc, List.map_map]
      exact map_const_replicate _ _
    · rw [if_neg hc, if_neg hc]
      rfl

/-- C7, counterexample: a directory with one good result file and a
malformed `system_info.json` — more than zero records load, yet the process
exits non-zero (the uncaught `json.load` exception), refuting "non-zero exit
only on directory-level conditions". -/
theorem c7_counterexample :
    totalRuns (load_results c7Files).1 = 1 ∧
    (runMain "results" (some c7Files)).2 = 1 ∧
    ¬ claimC7 := by
  have hcode : (runMain "results" (some c7Files)).2 = 1 :=
    runMainParts_crash_code "results" c7Files rfl
  refine ⟨rfl, hcode, ?_⟩
  intro h
  have h3 := h.2.2.1 "results" c7Files (by rw [hcode]; decide)
  rw [show totalRuns (load_results c7Files).1 = 1 from rfl] at h3
  exact absurd h3 (by decide)

/-- C7, amended: each malformed result file matching a dispatch pattern
produces a warning naming it while the batch continues; the missing
directory and the zero-loaded-records conditions exit 1 with distinct
messages; a present `system_info.json` that fails to parse crashes the run
with exit 1.  A run with records loaded exits 0 provided every loaded
record is well-typed (`recordOk`): outside that set CPython raises an
uncaught `TypeError`/`ValueError` mid-render (e.g. a string
`throughput_mbps` at the fastest-tool comparison) and also exits 1 — a
crash path the numeric model does not represent, hence the hypothesis. -/
theorem c7_error_policy :
    (∀ (dir : String) (files : List SrcFile) (f : SrcFile) (msg : String),
      f ∈ files → f.data = .bad msg → matchesAny f.name = true →
      Effect.out (warnLine f.name msg) ∈ (runMain dir (some files)).1) ∧
    (∀ dir : String, runMain dir none = ([Effect.out (dirMissingMsg dir)], 1)) ∧
    (∀ (dir : String) (files : List SrcFile), totalRuns (load_results files).1 = 0 →
      (runMain dir (some files)).2 = 1 ∧
      Effect.out noResultsMsg ∈ (runMain dir (some files)).1) ∧
    (∀ dir : String, dirMissingMsg dir ≠ noResultsMsg) ∧
    (∀ (dir : String) (files : List SrcFile), 0 < totalRuns (load_results files).1 →
      sysInfoCrashB files = false → resultsOk (load_results files).1 = true →
      (runMain dir (some files)).2 = 0) ∧
    (∀ (dir : String) (files : List SrcFile), sysInfoCrashB files = true →
      (runMain dir (some files)).2 = 1) := by
  refine ⟨?_, fun dir => rfl, ?_, dirMissing_ne_noResults, ?_, ?_⟩
  · intro dir files f msg hf hd hm
    exact (out_mem_runMain_iff _ _ _).mpr (warn_mem_runMainParts dir files f msg hf hd hm)
  · intro dir files h0
    constructor
    · show (runMainParts dir (some files)).2 = 1
      rw [runMainParts_zero dir files h0]
    · exact (out_mem_runMain_iff _ _ _).mpr (noResults_mem_runMainParts dir files h0)
  · intro dir files hpos hok _
    exact runMainParts_pos_code dir files hpos hok
  · intro dir files hcrash
    exact runMainParts_crash_code dir files hcrash

/-- C7, witness: the amended theorem instantiated on concrete directories —
a malformed `tool_` file warns, an empty directory exits 1 with the
no-results message, a clean well-typed run exits 0, a malformed
`system_info.json` exits 1; and the well-typedness hypothesis rules out the
record on which CPython would raise (`throughput_mbps` a string). -/
theorem c7_witness :
    Effect.out (warnLine "tool_y.json" "boom") ∈ (runMain "r" (some c7WitnessFiles)).1 ∧
    runMain "r" none = ([Effect.out (dirMissingMsg "r")], 1) ∧
    ((runMain "r" (some ([] : List SrcFile))).2 = 1 ∧
      Effect.out noResultsMsg ∈ (runMain "r" (some ([] : List SrcFile))).1) ∧
    dirMissingMsg "r" ≠ noResultsMsg ∧
    (runMain "r" (some c7WitnessFiles)).2 = 0 ∧
    (runMain "r" (some c7Files)).2 = 1 ∧
    recordOk (.jobj [("throughput_mbps", .jstr "fast")]) = false := by
  refine ⟨?_, c7_error_policy.2.1 "r", c7_error_policy.2.2.1 "r" [] rfl,
    c7_error_policy.2.2.2.1 "r",
    c7_error_policy.2.2.2.2.1 "r" c7WitnessFiles (by decide) rfl (by decide),
    c7_error_policy.2.2.2.2.2 "r" c7Files rfl, by decide⟩
  exact c7_error_policy.1 "r" c7WitnessFiles ⟨"tool_y.json", .bad "boom"⟩ "boom"
    (by simp [c7WitnessFiles]) rfl (by decide)

theorem Qlt_mk_one_iff (a b : Int) : (⟨a, 1⟩ : Q) < ⟨b, 1⟩ ↔ a < b := by
  show a * 1 < b * 1 ↔ a < b
  omega

/-- C8: the unit-conversion helpers are pure functions with 1024-based
thresholds for bytes — plain bytes below 1024, KB below 1024², MB below
1024³, GB above — and a 1000-based threshold for bit-rate — Gbps exactly at
or above 1000 Mbps, Mbps strictly below. -/
theorem c8_format_thresholds :
    (∀ n : Nat,
      (n < 1024 → format_bytes (.jint (n : Int)) = toString (n : Int) ++ "B") ∧
      (1024 ≤ n → n < 1024 * 1024 →
        format_bytes (.jint (n : Int)) = fmtFixed 1 (Q.ofInt (n : Int) / 1024) ++ "KB") ∧
      (1024 * 1024 ≤ n → n < 1024 * 1024 * 1024 →
        format_bytes (.jint (n : Int)) =
          fmtFixed 1 (Q.ofInt (n : Int) / ((1024 : Q) * 1024)) ++ "MB") ∧
      (1024 * 1024 * 1024 ≤ n →
        format_bytes (.jint (n : Int)) =
          fmtFixed 1 (Q.ofInt (n : Int) / ((1024 : Q) * 1024 * 1024)) ++ "GB")) ∧
    (∀ q : Q, 0 ≤ q.num → 0 < q.den →
      ((1000 : Q) ≤ q → format_throughputQ q = fmtFixed 2 (q / 1000) ++ " Gbps") ∧
      (q < (1000 : Q) → format_throughputQ q = fmtFixed 1 q ++ " Mbps")) := by
  constructor
  · intro n
    have e1 : (1024 : Q) = ⟨1024, 1⟩ := rfl
    have e2 : (⟨1024, 1⟩ : Q) * ⟨1024, 1⟩ = ⟨1048576, 1⟩ := by decide
    have e3 : (⟨1048576, 1⟩ : Q) * ⟨1024, 1⟩ = ⟨1073741824, 1⟩ := by decide
    have hQ : (JVal.jint (n : Int)).toQ = ⟨(n : Int), 1⟩ := rfl
    refine ⟨fun h => ?_, fun h1 h2 => ?_, fun h1 h2 => ?_, fun h1 => ?_⟩
    · show formatBytesNum (.jint (n : Int)) = _
      unfold formatBytesNum
      rw [hQ, e1, e2, e3, if_pos ((Qlt_mk_one_iff _ _).mpr (by omega))]
      rfl
    · show formatBytesNum (.jint (n : Int)) = _
      unfold formatBytesNum
      rw [hQ, e1, e2, e3, if_neg (by rw [Qlt_mk_one_iff]; omega),
        if_pos ((Qlt_mk_one_iff _ _).mpr (by omega))]
      rfl
    · show formatBytesNum (.jint (n : Int)) = _
      unfold formatBytesNum
      rw [hQ, e1, e2, e3, if_neg (by rw [Qlt_mk_one_iff]; omega),
        if_neg (by rw [Qlt_mk_one_iff]; omega), if_pos ((Qlt_mk_one_iff _ _).mpr (by omega))]
      rfl
    · show formatBytesNum (.jint (n : Int)) = _
      unfold formatBytesNum
      rw [hQ, e1, e2, e3, if_neg (by rw [Qlt_mk_one_iff]; omega),
        if_neg (by rw [Qlt_mk_one_iff]; omega), if_neg (by rw [Qlt_mk_one_iff]; omega)]
      rfl
  · intro q _ _
    constructor
    · intro h
      unfold format_throughputQ
      rw [if_pos h]
    · intro h
      unfold format_throughputQ
      rw [if_neg ?_]
      intro hc
      have hlt : q.num * 1 < (1000 : Int) * q.den := h
      have hle : (1000 : Int) * q.den ≤ q.num * 1 := hc
      omega

/-- C8, witness: the thresholds evaluated at concrete inputs on each side of
each boundary. -/
theorem c8_witness :
    format_bytes (.jint ((500 : Nat) : Int)) = "500B" ∧
    format_bytes (.jint ((2048 : Nat) : Int)) = "2.0KB" ∧
    format_bytes (.jint ((5242880 : Nat) : Int)) = "5.0MB" ∧
    format_bytes (.jint ((2147483648 : Nat) : Int)) = "2.0GB" ∧
    format_throughputQ 1500 = "1.50 Gbps" ∧
    format_throughputQ 400 = "400.0 Mbps" := by
  refine ⟨((c8_format_thresholds.1 500).1 (by omega)).trans rfl,
    ((c8_format_thresholds.1 2048).2.1 (by omega) (by omega)).trans rfl,
    ((c8_format_thresholds.1 5242880).2.2.1 (by omega) (by omega)).trans rfl,
    ((c8_format_thresholds.1 2147483648).2.2.2 (by omega)).trans rfl,
    ((c8_format_thresholds.2 1500 (by decide) (by decide)).1 (by decide)).trans rfl,
    ((c8_format_thresholds.2 400 (by decide) (by decide)).2 (by decide)).trans rfl⟩

/-- C9: a parallel record whose JSON lacks the `parallelism` field gets the
group identity `{benchmark}_p0` at ingestion (default 0), while the
terminal parallel table and the markdown scaling table both extract its
parallelism as the default 1 for sorting and efficiency — the displayed
level never equals the one embedded in the identity. -/
theorem c9_parallelism_default :
    ∀ run : JVal, run.get? "parallelism" = none →
      (∀ n : String,
        keyParallel n run = pyStr (run.getD "benchmark" (.jstr "parallel")) ++ "_p0") ∧
      (∀ t : String, (termPEntryOf t run).p = .jint 1) ∧
      (mdMEntryOf run).p = .jint 1 ∧ (JVal.jint 1 ≠ JVal.jint 0) := by
  intro run h
  refine ⟨fun n => ?_, fun t => ?_, ?_, by simp⟩
  · unfold keyParallel
    rw [show run.getD "parallelism" (.jint 0) = .jint 0 from by simp [JVal.getD, h],
      String.append_assoc]
    rfl
  · simp [termPEntryOf, JVal.getD, h]
  · simp [mdMEntryOf, JVal.getD, h]

/-- C9, witness: a concrete parallel record without `parallelism`: stored
under `parallel_rsync_p0` yet displayed at level 1 by both tables. -/
theorem c9_witness :
    c9Run.get? "parallelism" = none ∧
    keyParallel "parallel_x.json" c9Run = "parallel_rsync_p0" ∧
    (termPEntryOf "parallel_rsync_p0" c9Run).p = .jint 1 ∧
    (mdMEntryOf c9Run).p = .jint 1 := by
  have h := c9_parallelism_default c9Run rfl
  exact ⟨rfl, (h.1 "parallel_x.json").trans rfl, h.2.1 "parallel_rsync_p0", h.2.2.1⟩

/-- C10: `format_throughput` is total on numbers — every non-negative float
formats without error — but, unlike `format_duration` and `format_bytes`,
it has no string-coercion branch: every string argument (even the
numeric-looking "500") hits the raising comparison and errors, while the
other two helpers coerce "500" and format it. -/
theorem c10_throughput_strings :
    (∀ q : Q, 0 ≤ q.num → 0 < q.den → ∃ s, format_throughput (.jfloat q) = .ok s) ∧
    (∀ s : String, format_throughput (.jstr s) = .error .typeErr) ∧
    format_duration (.jstr "500") = "8.3m" ∧
    format_bytes (.jstr "500") = "500B" :=
  ⟨fun _ _ _ => ⟨_, rfl⟩, fun _ => rfl, rfl, rfl⟩

/-- C10, witness: a concrete non-negative float formats, the string "500"
raises. -/
theorem c10_witness :
    (∃ s, format_throughput (.jfloat ⟨400, 1⟩) = .ok s) ∧
    format_throughput (.jstr "500") = .error .typeErr :=
  ⟨c10_throughput_strings.1 ⟨400, 1⟩ (by decide) (by decide), c10_throughput_strings.2.1 "500"⟩

end AnalyzeResults


